import Mathlib

/-!
Verification of the `open_receipt_file` command of the POS desktop backend
(`src-tauri/src/lib.rs`).

The Rust function receives a path string, rejects the empty string with the
error `"path is empty"`, and otherwise spawns exactly one launcher process
chosen by compile-time platform dispatch:
  * macOS:   `open <path>`
  * Windows: `cmd /C start "" <path>`
  * other:   `xdg-open <path>`
A spawn failure is mapped to the error `"Failed to open file: " ++ e`, where
`e` is the OS error text; a successful spawn yields `Ok(())`.

The embedding makes the compile-time platform an explicit parameter and models
the OS by a spawn oracle: a function from a spawn request (program plus
argument list) to `Option String`, where `none` means the child process was
started and `some e` means the spawn failed with OS error text `e`.  The
function's only side effect, process spawning, is reified as the list of spawn
attempts it makes; the function performs no other effect (in particular it
never touches file contents, mirroring the source, which only calls
`std::process::Command::spawn`).
-/

/-- Compile-time platform, mirroring the three `cfg` branches of the source:
`target_os = "macos"`, `target_os = "windows"`, and the catch-all
`not(any(macos, windows))` branch. -/
inductive Platform where
  | macos
  | windows
  | other
deriving DecidableEq, Repr

/-- One spawn request: the program name and its argument list, exactly as the
source hands them to `std::process::Command`. -/
structure SpawnCall where
  program : String
  args : List String
deriving DecidableEq, Repr

/-- The OS spawn oracle.  `oracle c = none` means spawning `c` succeeds (a
child process starts); `oracle c = some e` means the spawn fails and the OS
error displays as the text `e`. -/
def SpawnOracle : Type := SpawnCall → Option String

/-- Outcome of a single call: the returned `Result<(), String>` together with
the list of spawn attempts the call made, in order. -/
structure CallResult where
  result : Except String Unit
  attempts : List SpawnCall
deriving Repr

/-- Shallow embedding of `open_receipt_file` from `src-tauri/src/lib.rs`.
The three platform branches mirror the three `cfg` blocks of the source:
each builds its launcher command, spawns it, and maps a spawn error `e` to
`"Failed to open file: " ++ e` (the Rust `format!("Failed to open file: {}", e)`).
The empty-path check precedes every branch, as in the source. -/
def open_receipt_file (plat : Platform) (oracle : SpawnOracle)
    (path : String) : CallResult :=
  if path.isEmpty then
    ⟨Except.error "path is empty", []⟩
  else
    match plat with
    | Platform.macos =>
        let c : SpawnCall := ⟨"open", [path]⟩
        match oracle c with
        | none => ⟨Except.ok (), [c]⟩
        | some e => ⟨Except.error ("Failed to open file: " ++ e), [c]⟩
    | Platform.windows =>
        let c : SpawnCall := ⟨"cmd", ["/C", "start", "", path]⟩
        match oracle c with
        | none => ⟨Except.ok (), [c]⟩
        | some e => ⟨Except.error ("Failed to open file: " ++ e), [c]⟩
    | Platform.other =>
        let c : SpawnCall := ⟨"xdg-open", [path]⟩
        match oracle c with
        | none => ⟨Except.ok (), [c]⟩
        | some e => ⟨Except.error ("Failed to open file: " ++ e), [c]⟩

/-- The single launcher invocation each platform branch issues for a given
path (the spec's process-boundary table). -/
def launcherCall (plat : Platform) (path : String) : SpawnCall :=
  match plat with
  | Platform.macos => ⟨"open", [path]⟩
  | Platform.windows => ⟨"cmd", ["/C", "start", "", path]⟩
  | Platform.other => ⟨"xdg-open", [path]⟩

/-- Number of OS processes actually started by a call: the spawn attempts the
oracle answered with success. -/
def started (oracle : SpawnOracle) (r : CallResult) : Nat :=
  (r.attempts.filter (fun c => (oracle c).isNone)).length

/-- Substring containment on strings, used to state "message contains ...". -/
def containsStr (s sub : String) : Prop :=
  ∃ pre post : String, s = pre ++ sub ++ post

lemma containsStr_refl (s : String) : containsStr s s :=
  ⟨"", "", by simp⟩

lemma containsStr_prefix (p s : String) : containsStr (p ++ s) s :=
  ⟨p, "", by simp⟩

lemma spawnFailMsg_ne_emptyMsg (e : String) :
    "Failed to open file: " ++ e ≠ "path is empty" := by
  intro h
  have hl := congrArg String.length h
  rw [String.length_append] at hl
  have h1 : ("Failed to open file: " : String).length = 21 := rfl
  have h2 : ("path is empty" : String).length = 13 := rfl
  rw [h1, h2] at hl
  omega

lemma open_receipt_file_empty (plat : Platform) (oracle : SpawnOracle)
    (path : String) (h : path.isEmpty = true) :
    open_receipt_file plat oracle path = ⟨Except.error "path is empty", []⟩ := by
  unfold open_receipt_file
  simp [h]

lemma open_receipt_file_nonempty (plat : Platform) (oracle : SpawnOracle)
    (path : String) (h : path.isEmpty = false) :
    open_receipt_file plat oracle path =
      match oracle (launcherCall plat path) with
      | none => ⟨Except.ok (), [launcherCall plat path]⟩
      | some e => ⟨Except.error ("Failed to open file: " ++ e),
          [launcherCall plat path]⟩ := by
  unfold open_receipt_file launcherCall
  cases plat <;> simp [h]

/-- C1: for every empty input string, `open_receipt_file` fails with a message
containing `"path is empty"` and makes no spawn attempt: the check happens
before any OS interaction, so no process is spawned and no other effect
occurs. -/
theorem C1_empty_path_rejected (plat : Platform) (oracle : SpawnOracle)
    (path : String) (h : path.isEmpty = true) :
    ∃ m, (open_receipt_file plat oracle path).result = Except.error m ∧
      containsStr m "path is empty" ∧
      (open_receipt_file plat oracle path).attempts = [] := by
  refine ⟨"path is empty", ?_, containsStr_refl _, ?_⟩ <;>
    rw [open_receipt_file_empty plat oracle path h]

/-- Witness for C1 at the concrete empty input on each platform shape. -/
theorem C1_empty_path_rejected_witness :
    ∃ m, (open_receipt_file Platform.macos (fun _ => none) "").result =
        Except.error m ∧
      containsStr m "path is empty" ∧
      (open_receipt_file Platform.macos (fun _ => none) "").attempts = [] :=
  C1_empty_path_rejected Platform.macos (fun _ => none) "" (by decide)

/-- C2: the call succeeds (with no payload) iff exactly one child process was
started; every failure message is either the empty-path message or a
spawn-failure message carrying the OS error for the single launcher call; and
at most one spawn attempt is ever made, so a failure is terminal — no retry
and no fallback launcher. -/
theorem C2_result_characterization (plat : Platform) (oracle : SpawnOracle)
    (path : String) :
    ((open_receipt_file plat oracle path).result = Except.ok () ↔
      started oracle (open_receipt_file plat oracle path) = 1) ∧
    (∀ m, (open_receipt_file plat oracle path).result = Except.error m →
      (path.isEmpty = true ∧ m = "path is empty") ∨
      (∃ e, oracle (launcherCall plat path) = some e ∧
        m = "Failed to open file: " ++ e)) ∧
    (open_receipt_file plat oracle path).attempts.length ≤ 1 := by
  cases h : path.isEmpty with
  | true =>
      rw [open_receipt_file_empty plat oracle path h]
      refine ⟨?_, ?_, ?_⟩
      · simp [started]
      · intro m hm
        simp only [Except.error.injEq] at hm
        exact Or.inl ⟨rfl, hm.symm⟩
      · simp
  | false =>
      rw [open_receipt_file_nonempty plat oracle path h]
      cases ho : oracle (launcherCall plat path) with
      | none =>
          refine ⟨?_, ?_, ?_⟩
          · simp [started, ho]
          · intro m hm
            simp at hm
          · simp
      | some e =>
          refine ⟨?_, ?_, ?_⟩
          · simp [started, ho]
          · intro m hm
            simp only [Except.error.injEq] at hm
            exact Or.inr ⟨e, rfl, hm.symm⟩
          · simp

/-- Witness for C2: a concrete successful call, extracted from the iff. -/
theorem C2_result_characterization_witness :
    (open_receipt_file Platform.other (fun _ => none) "/a").result =
      Except.ok () :=
  (C2_result_characterization Platform.other (fun _ => none) "/a").1.mpr rfl

/-- C3: for every non-empty path on the Apple desktop platform, exactly one
spawn attempt is made, namely `open` with the path as sole argument, and the
call returns success if that spawn succeeds. -/
theorem C3_macos_branch (oracle : SpawnOracle) (path : String)
    (h : path.isEmpty = false) :
    (open_receipt_file Platform.macos oracle path).attempts =
      [⟨"open", [path]⟩] ∧
    (oracle ⟨"open", [path]⟩ = none →
      (open_receipt_file Platform.macos oracle path).result = Except.ok ()) := by
  rw [open_receipt_file_nonempty Platform.macos oracle path h]
  constructor
  · cases oracle (launcherCall Platform.macos path) <;> rfl
  · intro ho
    have : launcherCall Platform.macos path = ⟨"open", [path]⟩ := rfl
    rw [this, ho]

/-- Witness for C3 at the spec's scenario input `"/tmp/receipt123.pdf"`. -/
theorem C3_macos_branch_witness :
    (open_receipt_file Platform.macos (fun _ => none)
        "/tmp/receipt123.pdf").attempts = [⟨"open", ["/tmp/receipt123.pdf"]⟩] ∧
    (open_receipt_file Platform.macos (fun _ => none)
        "/tmp/receipt123.pdf").result = Except.ok () := by
  have h := C3_macos_branch (fun _ => none) "/tmp/receipt123.pdf" (by decide)
  exact ⟨h.1, h.2 rfl⟩

/-- C4: for every non-empty path on Windows, exactly one spawn attempt is
made, namely `cmd` with arguments `["/C", "start", "", path]`, the path being
the final argument, and the call returns success if that spawn succeeds. -/
theorem C4_windows_branch (oracle : SpawnOracle) (path : String)
    (h : path.isEmpty = false) :
    (open_receipt_file Platform.windows oracle path).attempts =
      [⟨"cmd", ["/C", "start", "", path]⟩] ∧
    (["/C", "start", "", path] : List String).getLast? = some path ∧
    (oracle ⟨"cmd", ["/C", "start", "", path]⟩ = none →
      (open_receipt_file Platform.windows oracle path).result =
        Except.ok ()) := by
  rw [open_receipt_file_nonempty Platform.windows oracle path h]
  refine ⟨?_, rfl, ?_⟩
  · cases oracle (launcherCall Platform.windows path) <;> rfl
  · intro ho
    have : launcherCall Platform.windows path = ⟨"cmd", ["/C", "start", "", path]⟩ := rfl
    rw [this, ho]

/-- Witness for C4 at the spec's scenario input on Windows. -/
theorem C4_windows_branch_witness :
    (open_receipt_file Platform.windows (fun _ => none)
        "C:\\receipts\\r1.pdf").attempts =
      [⟨"cmd", ["/C", "start", "", "C:\\receipts\\r1.pdf"]⟩] ∧
    (open_receipt_file Platform.windows (fun _ => none)
        "C:\\receipts\\r1.pdf").result = Except.ok () := by
  have h := C4_windows_branch (fun _ => none) "C:\\receipts\\r1.pdf" (by decide)
  exact ⟨h.1, h.2.2 rfl⟩

/-- C5: for every non-empty path on any platform other than Apple desktop and
Windows, exactly one spawn attempt is made, namely `xdg-open` with the path as
its sole (hence final) argument, and the call returns success if that spawn
succeeds. -/
theorem C5_other_branch (oracle : SpawnOracle) (path : String)
    (h : path.isEmpty = false) :
    (open_receipt_file Platform.other oracle path).attempts =
      [⟨"xdg-open", [path]⟩] ∧
    ([path] : List String).getLast? = some path ∧
    (oracle ⟨"xdg-open", [path]⟩ = none →
      (open_receipt_file Platform.other oracle path).result = Except.ok ()) := by
  rw [open_receipt_file_nonempty Platform.other oracle path h]
  refine ⟨?_, rfl, ?_⟩
  · cases oracle (launcherCall Platform.other path) <;> rfl
  · intro ho
    have : launcherCall Platform.other path = ⟨"xdg-open", [path]⟩ := rfl
    rw [this, ho]

/-- Witness for C5 at a concrete non-empty path. -/
theorem C5_other_branch_witness :
    (open_receipt_file Platform.other (fun _ => none)
        "/tmp/r.pdf").attempts = [⟨"xdg-open", ["/tmp/r.pdf"]⟩] ∧
    (open_receipt_file Platform.other (fun _ => none)
        "/tmp/r.pdf").result = Except.ok () := by
  have h := C5_other_branch (fun _ => none) "/tmp/r.pdf" (by decide)
  exact ⟨h.1, h.2.2 rfl⟩

/-- C6: whenever the launcher spawn fails, the returned failure message
contains the underlying OS error text and differs from the empty-path message
`"path is empty"`. -/
theorem C6_spawn_failure_message (plat : Platform) (oracle : SpawnOracle)
    (path : String) (e : String) (h : path.isEmpty = false)
    (ho : oracle (launcherCall plat path) = some e) :
    ∃ m, (open_receipt_file plat oracle path).result = Except.error m ∧
      containsStr m e ∧ m ≠ "path is empty" := by
  rw [open_receipt_file_nonempty plat oracle path h, ho]
  exact ⟨"Failed to open file: " ++ e, rfl, containsStr_prefix _ _,
    spawnFailMsg_ne_emptyMsg e⟩

/-- Witness for C6 at a concrete failing oracle. -/
theorem C6_spawn_failure_message_witness :
    ∃ m, (open_receipt_file Platform.other (fun _ => some "No such file")
        "/a").result = Except.error m ∧
      containsStr m "No such file" ∧ m ≠ "path is empty" :=
  C6_spawn_failure_message Platform.other (fun _ => some "No such file") "/a"
    "No such file" (by decide) rfl

/-- C7: every call selects exactly one platform branch — its spawn attempts
are either empty (empty path) or exactly the single launcher call of its
platform — and starts exactly one OS process on success and zero on failure.
The effect trace consists of spawn attempts only: the embedding, like the
source, performs no file reads or writes. -/
theorem C7_one_branch_one_process (plat : Platform) (oracle : SpawnOracle)
    (path : String) :
    (path.isEmpty = true →
      (open_receipt_file plat oracle path).attempts = [] ∧
      started oracle (open_receipt_file plat oracle path) = 0) ∧
    (path.isEmpty = false →
      (open_receipt_file plat oracle path).attempts =
        [launcherCall plat path] ∧
      ((open_receipt_file plat oracle path).result = Except.ok () →
        started oracle (open_receipt_file plat oracle path) = 1) ∧
      (∀ m, (open_receipt_file plat oracle path).result = Except.error m →
        started oracle (open_receipt_file plat oracle path) = 0)) := by
  constructor
  · intro h
    rw [open_receipt_file_empty plat oracle path h]
    exact ⟨rfl, rfl⟩
  · intro h
    rw [open_receipt_file_nonempty plat oracle path h]
    cases ho : oracle (launcherCall plat path) with
    | none =>
        refine ⟨rfl, fun _ => ?_, fun m hm => ?_⟩
        · simp [started, ho]
        · simp at hm
    | some e =>
        refine ⟨rfl, fun hk => ?_, fun m hm => ?_⟩
        · simp at hk
        · simp [started, ho]

/-- Witness for C7: a concrete successful call starts exactly one process. -/
theorem C7_one_branch_one_process_witness :
    (open_receipt_file Platform.macos (fun _ => none) "/a").attempts =
      [launcherCall Platform.macos "/a"] ∧
    started (fun _ => none) (open_receipt_file Platform.macos (fun _ => none)
      "/a") = 1 := by
  have h := (C7_one_branch_one_process Platform.macos (fun _ => none)
    "/a").2 (by decide)
  exact ⟨h.1, h.2.1 rfl⟩

/-- C8: a call's outcome is determined only by its platform, its own path and
the OS outcome of its own single launcher call: two runs (in particular two
concurrent calls, which share no state in the source) whose oracles agree on
that one call produce identical results, whatever the oracles do on any other
spawn request, so distinct calls cannot interfere. -/
theorem C8_noninterference (plat : Platform) (oracle₁ oracle₂ : SpawnOracle)
    (path : String)
    (h : oracle₁ (launcherCall plat path) = oracle₂ (launcherCall plat path)) :
    open_receipt_file plat oracle₁ path = open_receipt_file plat oracle₂ path := by
  cases he : path.isEmpty with
  | true =>
      rw [open_receipt_file_empty plat oracle₁ path he,
        open_receipt_file_empty plat oracle₂ path he]
  | false =>
      rw [open_receipt_file_nonempty plat oracle₁ path he,
        open_receipt_file_nonempty plat oracle₂ path he, h]

/-- Witness for C8: two oracles differing everywhere except on the call's own
launcher invocation give the same result. -/
theorem C8_noninterference_witness :
    open_receipt_file Platform.other (fun _ => none) "/a" =
      open_receipt_file Platform.other
        (fun c => if c.program = "open" then some "boom" else none) "/a" :=
  C8_noninterference Platform.other (fun _ => none)
    (fun c => if c.program = "open" then some "boom" else none) "/a" (by decide)

/-- C9: every non-empty path — including a whitespace-only string such as
`" "`, which is non-empty — is accepted and forwarded to the launcher
verbatim: the single spawn attempt carries exactly the given string as its
final argument, with no trimming, quoting, escaping or normalization. -/
theorem C9_verbatim_forwarding (plat : Platform) (oracle : SpawnOracle)
    (path : String) (h : path.isEmpty = false) :
    (open_receipt_file plat oracle path).attempts = [launcherCall plat path] ∧
    (launcherCall plat path).args.getLast? = some path := by
  constructor
  · rw [open_receipt_file_nonempty plat oracle path h]
    cases oracle (launcherCall plat path) <;> rfl
  · cases plat <;> rfl

/-- Witness for C9 at the whitespace-only path `" "`: it is non-empty, is
accepted, and is forwarded unchanged. -/
theorem C9_verbatim_forwarding_witness :
    (open_receipt_file Platform.other (fun _ => none) " ").attempts =
      [launcherCall Platform.other " "] ∧
    (launcherCall Platform.other " ").args.getLast? = some " " :=
  C9_verbatim_forwarding Platform.other (fun _ => none) " " (by decide)

/-- C10: on every platform, a spawn failure with OS error text `e` yields
exactly the message `"Failed to open file: " ++ e`: the fixed literal prefix
`"Failed to open file: "` is identical across all three platform branches. -/
theorem C10_failure_prefix (plat : Platform) (oracle : SpawnOracle)
    (path : String) (e : String) (h : path.isEmpty = false)
    (ho : oracle (launcherCall plat path) = some e) :
    (open_receipt_file plat oracle path).result =
      Except.error ("Failed to open file: " ++ e) := by
  rw [open_receipt_file_nonempty plat oracle path h, ho]

/-- Witness for C10 at a concrete failing spawn. -/
theorem C10_failure_prefix_witness :
    (open_receipt_file Platform.windows (fun _ => some "access denied")
        "C:\\x").result =
      Except.error ("Failed to open file: " ++ "access denied") :=
  C10_failure_prefix Platform.windows (fun _ => some "access denied") "C:\\x"
    "access denied" (by decide) rfl
